import Mathlib

set_option maxHeartbeats 1000000

/-!
Verification development for the Geodatacrawler repository.

The Python sources are shallowly embedded:
* `src/data_crawler.py` (`GDACSXmlDtaCrawler`): XML items become `Item`
  records of optional `Elem`s (ElementTree `find` returns an element or
  `None`); fallible Python code becomes `Except PyErr`.
* `src/configs/config_parser.py` (`YamlConfigParser`, `ConfigData`): the
  parsed YAML document becomes a `YVal` tree.
* `src/db/db.py` (`GeoJsonDBDataWriter`): the database connection mapping
  becomes an association list; the outcome of the external `to_postgis`
  call is an explicit input of the embedded `write`.

Floating point numbers never have their numeric values inspected by the
code (they are parsed and stored); a parsed float is therefore represented
by its source token together with the decidable check `isPyFloatToken`
that models acceptance by Python's `float`.
-/

/-- Models a Python exception as raised by the embedded code: attribute
access on `None` (`AttributeError`), a missing dictionary key
(`KeyError`), a failed `float`/unpacking conversion (`ValueError`), and
the SQLAlchemy error family caught by the database writer. -/
inductive PyErr where
  | attributeError
  | keyError (key : String)
  | valueError
  | sqlAlchemyError (msg : String)
  deriving DecidableEq

/-- Models a Python value stored in the extracted event dictionary: a
string, the Python `None`, or the one-element tuple produced by the
trailing commas in `extract_event_information` (lines 181-190 of
`data_crawler.py`). -/
inductive PyVal where
  | str (s : String)
  | pynone
  | tup1 (s : String)
  deriving DecidableEq

/-- Converts an ElementTree `.text` (a string or `None`) to the Python
value stored in the event dictionary. -/
def pyOfOpt : Option String → PyVal
  | some s => .str s
  | none => .pynone

/-- Models an XML element as seen through ElementTree: an attribute
dictionary and an optional text content (`None` when the element is
empty). -/
structure Elem where
  attribs : List (String × String)
  text : Option String
  deriving DecidableEq

/-- Models one `<item>` element of the feed. Each field is the result of
the corresponding `event.find(...)` call in `extract_event_information`:
`some` when the element exists, `none` when `find` returns `None`.
`severity` and `population` are each looked up twice by the source
(guarded attribute block and unconditional text access); both lookups
read the same field here, as `find` is deterministic on a fixed tree. -/
structure Item where
  title : Option Elem
  description : Option Elem
  link : Option Elem
  pubDate : Option Elem
  severity : Option Elem
  population : Option Elem
  dateadded : Option Elem
  datemodified : Option Elem
  iscurrent : Option Elem
  fromdate : Option Elem
  todate : Option Elem
  durationinweek : Option Elem
  year : Option Elem
  subject : Option Elem
  guid : Option Elem
  bbox : Option Elem
  georssPoint : Option Elem
  eventtype : Option Elem
  alertlevel : Option Elem
  alertscore : Option Elem
  episodealertlevel : Option Elem
  episodealertscore : Option Elem
  eventid : Option Elem
  episodeid : Option Elem
  calculationtype : Option Elem
  vulnerability : Option Elem
  country : Option Elem
  deriving DecidableEq

/-- Models a GeoJSON geometry: a point whose coordinates are the two
float tokens in `(longitude, latitude)` order, or the null geometry that
`geojson.Feature` would carry when no geometry is supplied (the crawler
never emits it; claim C1 proves that). -/
inductive Geometry where
  | point (lon lat : String)
  | nullGeom
  deriving DecidableEq

/-- Models `geojson.Feature(id=..., properties=..., geometry=...)`. -/
structure Feature where
  id : Nat
  properties : List (String × PyVal)
  geometry : Geometry
  deriving DecidableEq

/-- Models `geojson.FeatureCollection`: the ordered list of features. -/
structure FeatureCollection where
  features : List Feature
  deriving DecidableEq

/-- Splits a character list on whitespace runs, dropping empty pieces;
`acc` accumulates the current token in reverse. -/
def splitWsAux : List Char → List Char → List String
  | [], acc => if acc.isEmpty then [] else [String.mk acc.reverse]
  | c :: rest, acc =>
    if c.isWhitespace then
      if acc.isEmpty then splitWsAux rest []
      else String.mk acc.reverse :: splitWsAux rest []
    else splitWsAux rest (c :: acc)

/-- Models Python `str.split()` with no argument: split on whitespace
runs, dropping empty pieces. -/
def pySplitWs (s : String) : List String :=
  splitWsAux s.toList []

/-- Digit-group well-formedness for Python float literals: underscores
may appear only singly and between digits, so no leading underscore, no
trailing underscore and no two in a row. -/
def underscoreOk : List Char → Bool
  | [] => true
  | ['_'] => false
  | '_' :: '_' :: _ => false
  | _ :: rest => underscoreOk rest

/-- A nonempty run of decimal digits, possibly with single underscores
between digits, as accepted inside a Python float literal. -/
def isDigitGroup (cs : List Char) : Bool :=
  match cs with
  | [] => false
  | c :: _ => c.isDigit && cs.all (fun d => d.isDigit || d == '_') && underscoreOk cs

/-- Strips one leading sign character, as Python's `float` does. -/
def stripSign : List Char → List Char
  | '+' :: rest => rest
  | '-' :: rest => rest
  | cs => cs

/-- Case-insensitive match of the special float spellings accepted by
Python's `float`: `inf`, `infinity` and `nan`. -/
def isInfNan (cs : List Char) : Bool :=
  let l := cs.map Char.toLower
  l == "inf".toList || l == "infinity".toList || l == "nan".toList

/-- Splits a character list at the first exponent marker `e`/`E`,
returning the mantissa and, when a marker exists, the exponent tail. -/
def splitAtExpMarker : List Char → List Char × Option (List Char)
  | [] => ([], none)
  | c :: rest =>
    if c == 'e' || c == 'E' then ([], some rest)
    else
      let (m, e) := splitAtExpMarker rest
      (c :: m, e)

/-- Splits a character list at the first dot, returning the integer part
and, when a dot exists, the fractional tail. -/
def splitAtDot : List Char → List Char × Option (List Char)
  | [] => ([], none)
  | c :: rest =>
    if c == '.' then ([], some rest)
    else
      let (m, e) := splitAtDot rest
      (c :: m, e)

/-- Mantissa of a Python float literal: `digits`, `digits.`,
`digits.digits` or `.digits`. -/
def isMantissa (cs : List Char) : Bool :=
  match splitAtDot cs with
  | (ip, none) => isDigitGroup ip
  | (ip, some fp) =>
    if ip.isEmpty then isDigitGroup fp
    else isDigitGroup ip && (fp.isEmpty || isDigitGroup fp)

/-- Exponent of a Python float literal: an optional sign and digits. -/
def isExpDigits (cs : List Char) : Bool :=
  isDigitGroup (stripSign cs)

/-- Models acceptance of a whitespace-free token by Python's `float`:
an optional sign, then `inf`/`infinity`/`nan` (any case) or a mantissa
with an optional exponent. -/
def isPyFloatToken (s : String) : Bool :=
  let cs := stripSign s.toList
  isInfNan cs ||
    (match splitAtExpMarker cs with
     | (m, none) => isMantissa m
     | (m, some e) => isMantissa m && isExpDigits e)

namespace GDACSXmlDtaCrawler

/-- Models `element.text` after an `event.find(...)` whose result may be
`None`: accessing `.text` on `None` raises `AttributeError`, otherwise
the optional text is returned. -/
def getText : Option Elem → Except PyErr (Option String)
  | none => Except.error PyErr.attributeError
  | some el => Except.ok el.text

/-- Models `element.attrib[key]`: a missing attribute raises `KeyError`. -/
def getAttr (el : Elem) (key : String) : Except PyErr String :=
  match el.attribs.lookup key with
  | some v => Except.ok v
  | none => Except.error (PyErr.keyError key)

/-- Models using the result of `event.find(...)` as an element: `None`
raises `AttributeError` at the following attribute access. -/
def reqElem : Option Elem → Except PyErr Elem
  | none => Except.error PyErr.attributeError
  | some el => Except.ok el

/-- Models the guarded severity block of `extract_event_information`
(lines 177-183): when the element is absent nothing is added; when it is
present, the `unit` and `value` attributes are read (raising `KeyError`
when missing) and stored as one-element tuples, and the element text is
stored under `Severity text`. -/
def severityBlock : Option Elem → Except PyErr (List (String × PyVal))
  | none => Except.ok []
  | some el =>
    match el.attribs.lookup "unit" with
    | none => Except.error (PyErr.keyError "unit")
    | some u =>
      match el.attribs.lookup "value" with
      | none => Except.error (PyErr.keyError "value")
      | some v =>
        Except.ok [("Severity unit", PyVal.tup1 u),
                   ("Severity value", PyVal.tup1 v),
                   ("Severity text", pyOfOpt el.text)]

/-- Models the guarded population block of `extract_event_information`
(lines 185-191), mirroring the severity block. -/
def populationBlock : Option Elem → Except PyErr (List (String × PyVal))
  | none => Except.ok []
  | some el =>
    match el.attribs.lookup "unit" with
    | none => Except.error (PyErr.keyError "unit")
    | some u =>
      match el.attribs.lookup "value" with
      | none => Except.error (PyErr.keyError "value")
      | some v =>
        Except.ok [("Population unit", PyVal.tup1 u),
                   ("Population value", PyVal.tup1 v),
                   ("Population text", pyOfOpt el.text)]

/-- Embeds `GDACSXmlDtaCrawler.extract_event_information` (lines
168-261 of `data_crawler.py`): the fixed sequence of element lookups in
source order, each unguarded `find(...).text` raising `AttributeError`
when the element is absent, producing the event dictionary as an ordered
association list (Python dictionaries preserve insertion order and all
keys here are distinct). -/
def extract_event_information (event : Item) : Except PyErr (List (String × PyVal)) :=
  Except.bind (getText event.title) fun title =>
  Except.bind (getText event.description) fun description =>
  Except.bind (getText event.link) fun link =>
  Except.bind (getText event.pubDate) fun pubDateV =>
  Except.bind (severityBlock event.severity) fun sevEntries =>
  Except.bind (populationBlock event.population) fun popEntries =>
  Except.bind (getText event.dateadded) fun dateAdded =>
  Except.bind (getText event.datemodified) fun dateModified =>
  Except.bind (getText event.iscurrent) fun isCurrent =>
  Except.bind (getText event.fromdate) fun fromDate =>
  Except.bind (getText event.todate) fun toDate =>
  Except.bind (getText event.durationinweek) fun durationInWeek =>
  Except.bind (getText event.year) fun yearV =>
  Except.bind (getText event.subject) fun subjectV =>
  Except.bind (reqElem event.guid) fun guidEl =>
  Except.bind (getAttr guidEl "isPermaLink") fun isPermaLink =>
  Except.bind (getText event.bbox) fun bboxV =>
  Except.bind (getText event.georssPoint) fun georssPointV =>
  Except.bind (getText event.eventtype) fun eventTypeV =>
  Except.bind (getText event.alertlevel) fun alertLevelV =>
  Except.bind (getText event.alertscore) fun alertScoreV =>
  Except.bind (getText event.episodealertlevel) fun episodeAlertLevelV =>
  Except.bind (getText event.episodealertscore) fun episodeAlertScoreV =>
  Except.bind (getText event.eventid) fun eventIdV =>
  Except.bind (getText event.episodeid) fun episodeIdV =>
  Except.bind (getText event.calculationtype) fun calculationTypeV =>
  Except.bind (getText event.severity) fun severityTextV =>
  Except.bind (getText event.population) fun populationTextV =>
  Except.bind (getText event.vulnerability) fun vulnerabilityV =>
  Except.bind (getText event.country) fun countryV =>
  Except.ok
    ([("Title", pyOfOpt title), ("Description", pyOfOpt description),
      ("Link", pyOfOpt link), ("Publication Date", pyOfOpt pubDateV)]
     ++ sevEntries ++ popEntries ++
     [("Date Added", pyOfOpt dateAdded),
      ("Date Modified", pyOfOpt dateModified),
      ("Is Current", pyOfOpt isCurrent),
      ("From Date", pyOfOpt fromDate),
      ("To Date", pyOfOpt toDate),
      ("Duration in Week", pyOfOpt durationInWeek),
      ("Year", pyOfOpt yearV),
      ("Subject", pyOfOpt subjectV),
      ("Is PermaLink", PyVal.str isPermaLink),
      ("Bbox", pyOfOpt bboxV),
      ("GeoRSS Point", pyOfOpt georssPointV),
      ("Event Type", pyOfOpt eventTypeV),
      ("Alert Level", pyOfOpt alertLevelV),
      ("Alert Score", pyOfOpt alertScoreV),
      ("Episode Alert Level", pyOfOpt episodeAlertLevelV),
      ("Episode Alert Score", pyOfOpt episodeAlertScoreV),
      ("Event ID", pyOfOpt eventIdV),
      ("Episode ID", pyOfOpt episodeIdV),
      ("Calculation Type", pyOfOpt calculationTypeV),
      ("Severity", pyOfOpt severityTextV),
      ("Population", pyOfOpt populationTextV),
      ("Vulnerability", pyOfOpt vulnerabilityV),
      ("Country", pyOfOpt countryV)])

/-- Models the skip path of `create_geojson_feature` (lines 276-280):
`logging.warning` never raises on the `%d`/string mismatch (the logging
module swallows formatting errors), but evaluating the argument
`event_dict["Title"]` raises `KeyError` when the key is absent. -/
def warnSkip (event_dict : List (String × PyVal)) : Except PyErr (Option Feature) :=
  match event_dict.lookup "Title" with
  | some _ => Except.ok none
  | none => Except.error (PyErr.keyError "Title")

/-- Embeds `GDACSXmlDtaCrawler.create_geojson_feature` (lines 263-280):
when `event_dict.get("GeoRSS Point")` is truthy (a nonempty string; a
tuple would be truthy but its `.split()` raises `AttributeError`), the
string is split on whitespace, both pieces must convert with `float`
(otherwise the unpacking raises `ValueError`), and the feature is built
with geometry coordinates `(longitude, latitude)` - the two tokens of
the feed's `lat lon` string swapped. A falsy value (absent key, `None`
text or empty string) takes the warning path and returns `None`. -/
def create_geojson_feature (event_dict : List (String × PyVal)) (feature_id : Nat) :
    Except PyErr (Option Feature) :=
  match event_dict.lookup "GeoRSS Point" with
  | some (.str s) =>
    if s == "" then warnSkip event_dict
    else
      match pySplitWs s with
      | [latTok, lonTok] =>
        if isPyFloatToken latTok && isPyFloatToken lonTok then
          Except.ok (some { id := feature_id, properties := event_dict,
                            geometry := Geometry.point lonTok latTok })
        else Except.error PyErr.valueError
      | _ => Except.error PyErr.valueError
  | some .pynone => warnSkip event_dict
  | some (.tup1 _) => Except.error PyErr.attributeError
  | none => warnSkip event_dict

/-- Embeds the item loop of `GDACSXmlDtaCrawler.get_data` (lines
296-307): each item is extracted (an uncaught exception aborts the whole
call), a feature is built with the current counter, and only an emitted
feature advances the counter and is appended. -/
def getDataAux : List Item → Nat → Except PyErr (List Feature)
  | [], _ => Except.ok []
  | event :: rest, ctr =>
    match extract_event_information event with
    | .error e => .error e
    | .ok event_dict =>
      match create_geojson_feature event_dict ctr with
      | .error e => .error e
      | .ok (some feature) =>
        match getDataAux rest (ctr + 1) with
        | .error e => .error e
        | .ok fs => .ok (feature :: fs)
      | .ok none => getDataAux rest ctr

/-- Embeds `GDACSXmlDtaCrawler.get_data` (lines 282-309) on an already
fetched and parsed document, given as the list of its `<item>` elements
in document order: the feature collection starts empty, the id counter
starts at 1, and the loop above fills the collection. -/
def get_data (items : List Item) : Except PyErr FeatureCollection :=
  match getDataAux items 1 with
  | .error e => .error e
  | .ok fs => .ok ⟨fs⟩

end GDACSXmlDtaCrawler

/-- Text of an optional element: the value of `find(...).text` when the
element exists, `none` otherwise. Used to state item-level properties. -/
def optText : Option Elem → Option String
  | some el => el.text
  | none => none

/-- Classification of a GeoRSS point text, mirroring the branches of
`create_geojson_feature`: a falsy text (absent or empty) is skipped, a
truthy text splitting into exactly two `float`-accepted tokens yields a
feature, and any other truthy text raises `ValueError`. -/
inductive PointOutcome where
  | skip
  | good (latTok lonTok : String)
  | bad
  deriving DecidableEq

/-- Classifies the optional GeoRSS point text of an item. -/
def classifyPoint : Option String → PointOutcome
  | none => .skip
  | some s =>
    if s == "" then .skip
    else
      match pySplitWs s with
      | [latTok, lonTok] =>
        if isPyFloatToken latTok && isPyFloatToken lonTok then .good latTok lonTok
        else .bad
      | _ => .bad

/-- The classification yielded a usable coordinate pair. -/
def isGoodPoint : PointOutcome → Bool
  | .good _ _ => true
  | _ => false

/-- Item-level check, mirroring `create_geojson_feature`: the item's
GeoRSS point element carries a truthy (nonempty) text that splits into
exactly two tokens accepted by Python's `float`. -/
def hasParsablePointB (ev : Item) : Bool :=
  isGoodPoint (classifyPoint (optText ev.georssPoint))

/-- An item lacks one of the field elements that
`extract_event_information` accesses unguardedly (every `find(...).text`
plus the guid element); `severity` and `population` are required because
lines 248-253 read their text without a presence check. -/
def requiredFieldMissing (ev : Item) : Bool :=
  ev.title.isNone || ev.description.isNone || ev.link.isNone || ev.pubDate.isNone ||
  ev.dateadded.isNone || ev.datemodified.isNone || ev.iscurrent.isNone ||
  ev.fromdate.isNone || ev.todate.isNone || ev.durationinweek.isNone ||
  ev.year.isNone || ev.subject.isNone || ev.guid.isNone || ev.bbox.isNone ||
  ev.georssPoint.isNone || ev.eventtype.isNone || ev.alertlevel.isNone ||
  ev.alertscore.isNone || ev.episodealertlevel.isNone || ev.episodealertscore.isNone ||
  ev.eventid.isNone || ev.episodeid.isNone || ev.calculationtype.isNone ||
  ev.severity.isNone || ev.population.isNone || ev.vulnerability.isNone || ev.country.isNone

/-- The four dictionary keys whose values are one-element tuples (the
trailing commas of lines 181-190 of `data_crawler.py`). -/
def tupleKeys : List String :=
  ["Severity unit", "Severity value", "Population unit", "Population value"]

/-- Shape of a value stored in the extracted event dictionary: a string
or Python `None`, except that the four `tupleKeys` hold one-element
tuples of strings. -/
def valShapeB : String × PyVal → Bool
  | (_, .str _) => true
  | (_, .pynone) => true
  | (k, .tup1 _) => tupleKeys.contains k

lemma valShapeB_ofOpt (k : String) (t : Option String) : valShapeB (k, pyOfOpt t) = true := by
  cases t <;> rfl

lemma valShapeB_str (k s : String) : valShapeB (k, PyVal.str s) = true := rfl

lemma valShapeB_tup1 (k s : String) : valShapeB (k, PyVal.tup1 s) = tupleKeys.contains k := rfl

lemma lookup_append {α β : Type} [BEq α] (k : α) (l₁ l₂ : List (α × β)) :
    List.lookup k (l₁ ++ l₂) = ((List.lookup k l₁).orElse fun _ => List.lookup k l₂) := by
  induction l₁ with
  | nil => rfl
  | cons p rest ih =>
    obtain ⟨a, b⟩ := p
    simp only [List.cons_append, List.lookup]
    cases hka : k == a <;> simp [hka, ih]

namespace GDACSXmlDtaCrawler

lemma severityBlock_ok_shape (e : Option Elem) (l : List (String × PyVal))
    (h : severityBlock e = Except.ok l) :
    l.all valShapeB = true ∧ List.lookup "GeoRSS Point" l = none ∧
    List.lookup "Title" l = none := by
  cases e with
  | none =>
    simp [severityBlock] at h
    subst h
    exact ⟨rfl, rfl, rfl⟩
  | some el =>
    simp only [severityBlock] at h
    rcases hu : el.attribs.lookup "unit" with _ | u
    · rw [hu] at h; simp at h
    rw [hu] at h
    rcases hv : el.attribs.lookup "value" with _ | v
    · rw [hv] at h; simp at h
    rw [hv] at h
    simp only [Except.ok.injEq] at h
    subst h
    refine ⟨?_, rfl, rfl⟩
    simp only [List.all_cons, List.all_nil, valShapeB_tup1, valShapeB_ofOpt, Bool.and_true]
    decide

lemma populationBlock_ok_shape (e : Option Elem) (l : List (String × PyVal))
    (h : populationBlock e = Except.ok l) :
    l.all valShapeB = true ∧ List.lookup "GeoRSS Point" l = none ∧
    List.lookup "Title" l = none := by
  cases e with
  | none =>
    simp [populationBlock] at h
    subst h
    exact ⟨rfl, rfl, rfl⟩
  | some el =>
    simp only [populationBlock] at h
    rcases hu : el.attribs.lookup "unit" with _ | u
    · rw [hu] at h; simp at h
    rw [hu] at h
    rcases hv : el.attribs.lookup "value" with _ | v
    · rw [hv] at h; simp at h
    rw [hv] at h
    simp only [Except.ok.injEq] at h
    subst h
    refine ⟨?_, rfl, rfl⟩
    simp only [List.all_cons, List.all_nil, valShapeB_tup1, valShapeB_ofOpt, Bool.and_true]
    decide

/-- Characterization of a successful extraction: the dictionary holds
the GeoRSS point text of the item, a `Title` entry is present, every
stored value has the expected shape, and no required field is missing. -/
lemma extract_ok_spec (ev : Item) (d : List (String × PyVal))
    (h : extract_event_information ev = Except.ok d) :
    List.lookup "GeoRSS Point" d = some (pyOfOpt (optText ev.georssPoint)) ∧
    (List.lookup "Title" d).isSome = true ∧
    d.all valShapeB = true ∧
    requiredFieldMissing ev = false := by
  unfold extract_event_information at h
  rcases hT : ev.title with _ | elTitle
  · rw [hT] at h; simp [getText, Except.bind] at h
  rw [hT] at h; simp only [getText, Except.bind] at h
  rcases hD : ev.description with _ | elDesc
  · rw [hD] at h; simp [getText, Except.bind] at h
  rw [hD] at h; simp only [getText, Except.bind] at h
  rcases hL : ev.link with _ | elLink
  · rw [hL] at h; simp [getText, Except.bind] at h
  rw [hL] at h; simp only [getText, Except.bind] at h
  rcases hP : ev.pubDate with _ | elPub
  · rw [hP] at h; simp [getText, Except.bind] at h
  rw [hP] at h; simp only [getText, Except.bind] at h
  rcases hsevB : severityBlock ev.severity with e | sevEntries
  · rw [hsevB] at h; simp [Except.bind] at h
  rw [hsevB] at h; simp only [Except.bind] at h
  rcases hpopB : populationBlock ev.population with e | popEntries
  · rw [hpopB] at h; simp [Except.bind] at h
  rw [hpopB] at h; simp only [Except.bind] at h
  rcases hDA : ev.dateadded with _ | elDA
  · rw [hDA] at h; simp [getText, Except.bind] at h
  rw [hDA] at h; simp only [getText, Except.bind] at h
  rcases hDM : ev.datemodified with _ | elDM
  · rw [hDM] at h; simp [getText, Except.bind] at h
  rw [hDM] at h; simp only [getText, Except.bind] at h
  rcases hIC : ev.iscurrent with _ | elIC
  · rw [hIC] at h; simp [getText, Except.bind] at h
  rw [hIC] at h; simp only [getText, Except.bind] at h
  rcases hFD : ev.fromdate with _ | elFD
  · rw [hFD] at h; simp [getText, Except.bind] at h
  rw [hFD] at h; simp only [getText, Except.bind] at h
  rcases hTD : ev.todate with _ | elTD
  · rw [hTD] at h; simp [getText, Except.bind] at h
  rw [hTD] at h; simp only [getText, Except.bind] at h
  rcases hDW : ev.durationinweek with _ | elDW
  · rw [hDW] at h; simp [getText, Except.bind] at h
  rw [hDW] at h; simp only [getText, Except.bind] at h
  rcases hYr : ev.year with _ | elYr
  · rw [hYr] at h; simp [getText, Except.bind] at h
  rw [hYr] at h; simp only [getText, Except.bind] at h
  rcases hSu : ev.subject with _ | elSub
  · rw [hSu] at h; simp [getText, Except.bind] at h
  rw [hSu] at h; simp only [getText, Except.bind] at h
  rcases hGu : ev.guid with _ | elGuid
  · rw [hGu] at h; simp [reqElem, Except.bind] at h
  rw [hGu] at h; simp only [reqElem, Except.bind] at h
  rcases hPe : elGuid.attribs.lookup "isPermaLink" with _ | permaV
  · simp [getAttr, hPe, Except.bind] at h
  simp only [getAttr, hPe, Except.bind] at h
  rcases hBB : ev.bbox with _ | elBB
  · rw [hBB] at h; simp [getText, Except.bind] at h
  rw [hBB] at h; simp only [getText, Except.bind] at h
  rcases hGp : ev.georssPoint with _ | elGp
  · rw [hGp] at h; simp [getText, Except.bind] at h
  rw [hGp] at h; simp only [getText, Except.bind] at h
  rcases hET : ev.eventtype with _ | elET
  · rw [hET] at h; simp [getText, Except.bind] at h
  rw [hET] at h; simp only [getText, Except.bind] at h
  rcases hAL : ev.alertlevel with _ | elAL
  · rw [hAL] at h; simp [getText, Except.bind] at h
  rw [hAL] at h; simp only [getText, Except.bind] at h
  rcases hAS : ev.alertscore with _ | elAS
  · rw [hAS] at h; simp [getText, Except.bind] at h
  rw [hAS] at h; simp only [getText, Except.bind] at h
  rcases hEAL : ev.episodealertlevel with _ | elEAL
  · rw [hEAL] at h; simp [getText, Except.bind] at h
  rw [hEAL] at h; simp only [getText, Except.bind] at h
  rcases hEAS : ev.episodealertscore with _ | elEAS
  · rw [hEAS] at h; simp [getText, Except.bind] at h
  rw [hEAS] at h; simp only [getText, Except.bind] at h
  rcases hEI : ev.eventid with _ | elEID
  · rw [hEI] at h; simp [getText, Except.bind] at h
  rw [hEI] at h; simp only [getText, Except.bind] at h
  rcases hEpI : ev.episodeid with _ | elEpID
  · rw [hEpI] at h; simp [getText, Except.bind] at h
  rw [hEpI] at h; simp only [getText, Except.bind] at h
  rcases hCT : ev.calculationtype with _ | elCT
  · rw [hCT] at h; simp [getText, Except.bind] at h
  rw [hCT] at h; simp only [getText, Except.bind] at h
  rcases hSv : ev.severity with _ | elSev2
  · rw [hSv] at h; simp [getText, Except.bind] at h
  rw [hSv] at h; simp only [getText, Except.bind] at h
  rcases hPp : ev.population with _ | elPop2
  · rw [hPp] at h; simp [getText, Except.bind] at h
  rw [hPp] at h; simp only [getText, Except.bind] at h
  rcases hVu : ev.vulnerability with _ | elVul
  · rw [hVu] at h; simp [getText, Except.bind] at h
  rw [hVu] at h; simp only [getText, Except.bind] at h
  rcases hCo : ev.country with _ | elCo
  · rw [hCo] at h; simp [getText, Except.bind] at h
  rw [hCo] at h; simp only [getText, Except.bind] at h
  simp only [Except.ok.injEq] at h
  subst h
  have hsg := severityBlock_ok_shape ev.severity sevEntries hsevB
  have hpg := populationBlock_ok_shape ev.population popEntries hpopB
  refine ⟨?_, ?_, ?_, ?_⟩
  · simp [optText, lookup_append, hsg.2.1, hpg.2.1, List.lookup]
  · simp [lookup_append, List.lookup]
  · simp [List.all_append, List.all_cons, List.all_nil, valShapeB_str, valShapeB_ofOpt,
      hsg.1, hpg.1]
  · simp [requiredFieldMissing, hT, hD, hL, hP, hDA, hDM, hIC, hFD, hTD, hDW, hYr,
      hSu, hGu, hBB, hGp, hET, hAL, hAS, hEAL, hEAS, hEI, hEpI, hCT, hSv, hPp, hVu, hCo]

end GDACSXmlDtaCrawler

namespace GDACSXmlDtaCrawler

/-- Evaluation of `create_geojson_feature` on a dictionary whose GeoRSS
point entry stores the text `t` and which has a `Title` entry, expressed
through the point classification. -/
lemma create_eval (d : List (String × PyVal)) (fid : Nat) (t : Option String)
    (hg : List.lookup "GeoRSS Point" d = some (pyOfOpt t))
    (hT : (List.lookup "Title" d).isSome = true) :
    create_geojson_feature d fid =
      match classifyPoint t with
      | .skip => Except.ok none
      | .good latTok lonTok =>
        Except.ok (some ⟨fid, d, Geometry.point lonTok latTok⟩)
      | .bad => Except.error PyErr.valueError := by
  have hw : warnSkip d = Except.ok none := by
    unfold warnSkip
    rcases ht : List.lookup "Title" d with _ | v
    · rw [ht] at hT; simp at hT
    · rfl
  cases t with
  | none => simp [create_geojson_feature, hg, pyOfOpt, classifyPoint, hw]
  | some s =>
    cases hs : (s == "") with
    | true => simp [create_geojson_feature, hg, pyOfOpt, classifyPoint, hs, hw]
    | false =>
      rcases hsp : pySplitWs s with _ | ⟨a, _ | ⟨b, _ | ⟨c, rest⟩⟩⟩
      · simp [create_geojson_feature, hg, pyOfOpt, classifyPoint, hs, hsp]
      · simp [create_geojson_feature, hg, pyOfOpt, classifyPoint, hs, hsp]
      · cases hf : (isPyFloatToken a && isPyFloatToken b) with
        | true => simp [create_geojson_feature, hg, pyOfOpt, classifyPoint, hs, hsp, hf]
        | false => simp [create_geojson_feature, hg, pyOfOpt, classifyPoint, hs, hsp, hf]
      · simp [create_geojson_feature, hg, pyOfOpt, classifyPoint, hs, hsp]

/-- Characterization of a successful crawl loop: one feature per item
with a parsable point, ids counted consecutively from `ctr` in document
order, every extraction succeeded, and each emitted feature carries a
well-shaped dictionary and a point geometry. -/
lemma getDataAux_ok_spec (items : List Item) (ctr : Nat) (fs : List Feature)
    (h : getDataAux items ctr = Except.ok fs) :
    fs.length = items.countP hasParsablePointB ∧
    fs.map Feature.id = List.range' ctr fs.length ∧
    (∀ ev ∈ items, ∃ d, extract_event_information ev = Except.ok d) ∧
    (∀ f ∈ fs, f.properties.all valShapeB = true ∧
       ∃ lon lat, f.geometry = Geometry.point lon lat) := by
  induction items generalizing ctr fs with
  | nil =>
    simp only [getDataAux, Except.ok.injEq] at h
    subst h
    simp [List.range']
  | cons ev rest ih =>
    rcases hx : extract_event_information ev with e | d
    · simp only [getDataAux, hx] at h
      exact Except.noConfusion h
    obtain ⟨hg, hT, hshape, hreq⟩ := extract_ok_spec ev d hx
    have hc := create_eval d ctr (optText ev.georssPoint) hg hT
    rcases hcl : classifyPoint (optText ev.georssPoint) with _ | ⟨latTok, lonTok⟩ | _
    · rw [hcl] at hc
      simp only [getDataAux, hx, hc] at h
      obtain ⟨ih1, ih2, ih3, ih4⟩ := ih ctr fs h
      have hpf : hasParsablePointB ev = false := by
        rw [hasParsablePointB, hcl]; rfl
      refine ⟨?_, ih2, ?_, ih4⟩
      · simp [List.countP_cons, hpf, ih1]
      · intro e2 he
        rcases List.mem_cons.mp he with rfl | hmem
        · exact ⟨d, hx⟩
        · exact ih3 e2 hmem
    · rw [hcl] at hc
      simp only [getDataAux, hx, hc] at h
      rcases hrec : getDataAux rest (ctr + 1) with e3 | fs'
      · rw [hrec] at h; simp at h
      rw [hrec] at h
      simp only [Except.ok.injEq] at h
      subst h
      obtain ⟨ih1, ih2, ih3, ih4⟩ := ih (ctr + 1) fs' hrec
      have hpt : hasParsablePointB ev = true := by
        rw [hasParsablePointB, hcl]; rfl
      refine ⟨?_, ?_, ?_, ?_⟩
      · simp [List.countP_cons, hpt, ih1]
      · simp [List.map_cons, ih2, List.length_cons, List.range']
      · intro e2 he
        rcases List.mem_cons.mp he with rfl | hmem
        · exact ⟨d, hx⟩
        · exact ih3 e2 hmem
      · intro f hf
        rcases List.mem_cons.mp hf with rfl | hmem
        · exact ⟨hshape, lonTok, latTok, rfl⟩
        · exact ih4 f hmem
    · rw [hcl] at hc
      simp only [getDataAux, hx, hc] at h
      exact Except.noConfusion h

end GDACSXmlDtaCrawler

/-- A sample element with no attributes carrying the given text. -/
def stdElem (t : String) : Option Elem :=
  some { attribs := [], text := some t }

/-- A fully populated sample feed item whose GeoRSS point text is `pt`
(`none` models a present but empty `georss:point` element). -/
def sampleItem (pt : Option String) : Item where
  title := stdElem "Green earthquake alert"
  description := stdElem "An earthquake occurred"
  link := stdElem "https://example.org/report/123"
  pubDate := stdElem "Fri, 10 May 2024 00:00:00 GMT"
  severity := some { attribs := [("unit", "M"), ("value", "7.5")],
                     text := some "Magnitude 7.5M" }
  population := some { attribs := [("unit", "people"), ("value", "1000")],
                       text := some "1000 people affected" }
  dateadded := stdElem "Fri, 10 May 2024 00:00:00 GMT"
  datemodified := stdElem "Fri, 10 May 2024 01:00:00 GMT"
  iscurrent := stdElem "true"
  fromdate := stdElem "Fri, 10 May 2024 00:00:00 GMT"
  todate := stdElem "Fri, 10 May 2024 00:00:00 GMT"
  durationinweek := stdElem "0"
  year := stdElem "2024"
  subject := stdElem "EQ1"
  guid := some { attribs := [("isPermaLink", "false")], text := some "EQ123" }
  bbox := stdElem "10 20 30 40"
  georssPoint := some { attribs := [], text := pt }
  eventtype := stdElem "EQ"
  alertlevel := stdElem "Green"
  alertscore := stdElem "1"
  episodealertlevel := stdElem "Green"
  episodealertscore := stdElem "1"
  eventid := stdElem "123"
  episodeid := stdElem "456"
  calculationtype := stdElem "earthquake"
  vulnerability := stdElem "0"
  country := stdElem "Chile"

/-- Sample document: two items with parsable points around one whose
point element is present but empty, which the crawler skips. -/
def sampleDoc : List Item :=
  [sampleItem (some "10.5 20.25"), sampleItem none, sampleItem (some "-5 7.0")]

/-- The collection the crawler produces on `sampleDoc`. -/
def sampleFC : FeatureCollection :=
  match GDACSXmlDtaCrawler.get_data sampleDoc with
  | .ok fc => fc
  | .error _ => ⟨[]⟩

/-- The crawl call raised an uncaught exception, so no collection was
returned. -/
def crawlFails (items : List Item) : Bool :=
  match GDACSXmlDtaCrawler.get_data items with
  | .error _ => true
  | .ok _ => false

/-- Claim C1: whenever `GDACSXmlDtaCrawler.get_data` returns a feature
collection, it contains exactly one feature per item whose GeoRSS point
field is a populated, parsable two-number string, and every emitted
feature carries a real point geometry (no placeholder geometry). Items
without such a point contribute no feature; an item with a populated but
unparsable point aborts the call, so none occurs in a returned
collection. -/
theorem get_data_one_feature_per_parsable_point (items : List Item)
    (fc : FeatureCollection)
    (h : GDACSXmlDtaCrawler.get_data items = Except.ok fc) :
    fc.features.length = items.countP hasParsablePointB ∧
    ∀ f ∈ fc.features, ∃ lon lat, f.geometry = Geometry.point lon lat := by
  rcases haux : GDACSXmlDtaCrawler.getDataAux items 1 with e | fs
  · simp only [GDACSXmlDtaCrawler.get_data, haux] at h
    exact Except.noConfusion h
  simp only [GDACSXmlDtaCrawler.get_data, haux, Except.ok.injEq] at h
  subst h
  obtain ⟨h1, -, -, h4⟩ := GDACSXmlDtaCrawler.getDataAux_ok_spec items 1 fs haux
  exact ⟨h1, fun f hf => (h4 f hf).2⟩

/-- Claim C1 witness: on the sample document, two of three items have a
parsable point and exactly two features are emitted. -/
theorem get_data_one_feature_per_parsable_point_witness :
    sampleFC.features.length = sampleDoc.countP hasParsablePointB :=
  (get_data_one_feature_per_parsable_point sampleDoc sampleFC rfl).1

/-- Claim C2: whenever `GDACSXmlDtaCrawler.get_data` returns a feature
collection, the emitted feature ids are the dense consecutive integers
1, 2, ... in document order; skipped items never advance the counter. -/
theorem get_data_ids_dense_from_one (items : List Item) (fc : FeatureCollection)
    (h : GDACSXmlDtaCrawler.get_data items = Except.ok fc) :
    fc.features.map Feature.id = List.range' 1 fc.features.length := by
  rcases haux : GDACSXmlDtaCrawler.getDataAux items 1 with e | fs
  · simp only [GDACSXmlDtaCrawler.get_data, haux] at h
    exact Except.noConfusion h
  simp only [GDACSXmlDtaCrawler.get_data, haux, Except.ok.injEq] at h
  subst h
  exact (GDACSXmlDtaCrawler.getDataAux_ok_spec items 1 fs haux).2.1

/-- Claim C2 witness: on the sample document (whose middle item is
skipped) the two emitted features carry ids 1 and 2. -/
theorem get_data_ids_dense_from_one_witness :
    sampleFC.features.map Feature.id = List.range' 1 sampleFC.features.length :=
  get_data_ids_dense_from_one sampleDoc sampleFC rfl

/-- Claim C3: for a dictionary whose GeoRSS point entry is a populated
string of two space-separated float tokens read as `lat lon`,
`create_geojson_feature` emits a feature whose point geometry stores the
coordinates `(longitude, latitude)`, i.e. the two numbers of the feed
string swapped. -/
theorem create_feature_swaps_lat_lon (d : List (String × PyVal)) (fid : Nat)
    (s latTok lonTok : String)
    (hs : List.lookup "GeoRSS Point" d = some (PyVal.str s))
    (hne : (s == "") = false)
    (hsplit : pySplitWs s = [latTok, lonTok])
    (hlat : isPyFloatToken latTok = true)
    (hlon : isPyFloatToken lonTok = true) :
    GDACSXmlDtaCrawler.create_geojson_feature d fid =
      Except.ok (some { id := fid, properties := d,
                        geometry := Geometry.point lonTok latTok }) := by
  simp [GDACSXmlDtaCrawler.create_geojson_feature, hs, hne, hsplit, hlat, hlon]

/-- Dictionary used to witness the coordinate swap. -/
def swapDict : List (String × PyVal) :=
  [("GeoRSS Point", PyVal.str "25.5 -80.25"), ("Title", PyVal.str "t")]

/-- Claim C3 witness: the feed string `25.5 -80.25` (lat lon) yields the
point geometry `(-80.25, 25.5)` (lon lat). -/
theorem create_feature_swaps_lat_lon_witness :
    GDACSXmlDtaCrawler.create_geojson_feature swapDict 1 =
      Except.ok (some { id := 1, properties := swapDict,
                        geometry := Geometry.point "-80.25" "25.5" }) :=
  create_feature_swaps_lat_lon swapDict 1 "25.5 -80.25" "25.5" "-80.25"
    rfl rfl (by decide) (by decide) (by decide)

/-- Claim C4: a feed document containing an item that lacks one of the
unguardedly accessed field elements (for example no `title`, or no
`gdacs:dateadded`) makes the entire `get_data` call fail with the
uncaught access error; the item is not skipped and no partial feature
collection is returned. -/
theorem missing_required_field_aborts_crawl (items : List Item) (ev : Item)
    (hmem : ev ∈ items) (hmiss : requiredFieldMissing ev = true) :
    crawlFails items = true := by
  unfold crawlFails
  rcases hgd : GDACSXmlDtaCrawler.get_data items with e | fc
  · rfl
  · exfalso
    rcases haux : GDACSXmlDtaCrawler.getDataAux items 1 with e2 | fs
    · simp only [GDACSXmlDtaCrawler.get_data, haux] at hgd
      exact Except.noConfusion hgd
    obtain ⟨-, -, hall, -⟩ := GDACSXmlDtaCrawler.getDataAux_ok_spec items 1 fs haux
    obtain ⟨d, hx⟩ := hall ev hmem
    have hok := (GDACSXmlDtaCrawler.extract_ok_spec ev d hx).2.2.2
    rw [hok] at hmiss
    exact Bool.noConfusion hmiss

/-- Document whose only item lacks a `title` element. -/
def badDoc : List Item :=
  [{ sampleItem (some "1 2") with title := none }]

/-- Claim C4 witness: the document with a title-less item makes the
whole crawl call fail. -/
theorem missing_required_field_aborts_crawl_witness : crawlFails badDoc = true :=
  missing_required_field_aborts_crawl badDoc
    { sampleItem (some "1 2") with title := none }
    (List.mem_singleton.mpr rfl) (by decide)

/-- The stored value is a Python string. -/
def isStrVal : PyVal → Bool
  | .str _ => true
  | _ => false

/-- Claim C8 counterexample: on the sample document the crawler emits a
feature whose `Severity unit` property holds the one-element tuple
`("M",)` - produced by the trailing commas in
`extract_event_information` - so it is false that every property value
of every emitted feature is a string. -/
theorem property_values_not_all_strings :
    ¬ ∀ fc, GDACSXmlDtaCrawler.get_data sampleDoc = Except.ok fc →
        ∀ f ∈ fc.features, f.properties.all (fun p => isStrVal p.2) = true := by
  intro hall
  exact absurd (hall sampleFC rfl) (by decide)

/-- Claim C8 as amended: every property value of an emitted feature is a
string or Python `None` (for an absent text content), except that the
four keys `Severity unit`, `Severity value`, `Population unit` and
`Population value` hold one-element tuples of attribute strings when the
corresponding element is present. -/
theorem property_values_shape (items : List Item) (fc : FeatureCollection)
    (h : GDACSXmlDtaCrawler.get_data items = Except.ok fc) :
    ∀ f ∈ fc.features, f.properties.all valShapeB = true := by
  rcases haux : GDACSXmlDtaCrawler.getDataAux items 1 with e | fs
  · simp only [GDACSXmlDtaCrawler.get_data, haux] at h
    exact Except.noConfusion h
  simp only [GDACSXmlDtaCrawler.get_data, haux, Except.ok.injEq] at h
  subst h
  exact fun f hf => ((GDACSXmlDtaCrawler.getDataAux_ok_spec items 1 fs haux).2.2.2 f hf).1

/-- Claim C8 amended-claim witness: every feature of the sample
collection has well-shaped property values. -/
theorem property_values_shape_witness :
    sampleFC.features.all (fun f => f.properties.all valShapeB) = true :=
  List.all_eq_true.mpr (fun f hf => property_values_shape sampleDoc sampleFC rfl f hf)

/-- Models a value parsed from the YAML configuration document: Python
`None`, strings, integers and string-keyed mappings (insertion order). -/
inductive YVal where
  | null
  | str (s : String)
  | int (n : Int)
  | ymap (entries : List (String × YVal))

/-- Models the outcome of `open` plus `yaml.safe_load` inside
`YamlConfigParser.get_data`: the two exception classes the source
catches, or the parsed value - which is `YVal.null` for an empty or
`null` document, since `safe_load` returns `None` there. -/
inductive YamlLoadOutcome where
  | fileNotFound
  | yamlError (msg : String)
  | parsed (v : YVal)

namespace YamlConfigParser

/-- Embeds `YamlConfigParser.get_data` (lines 44-60 of
`config_parser.py`): `FileNotFoundError` and `yaml.YAMLError` are caught,
logged, and an empty mapping is returned; otherwise the value produced
by `safe_load` is returned unchanged - in particular `None` rather than
a mapping for an empty document. -/
def get_data : YamlLoadOutcome → YVal
  | .fileNotFound => .ymap []
  | .yamlError _ => .ymap []
  | .parsed v => v

end YamlConfigParser

/-- Embeds `ConfigData.__init__` (lines 63-77): the raw configuration
value and the environment label. -/
structure ConfigData where
  config_data : YVal
  env_var : String

namespace ConfigData

/-- Embeds the `common` property (lines 89-97):
`self.config_data.get("COMMON", {})`. Python's `.get` exists only on
mappings; on `None` (or any non-mapping) the attribute access raises
`AttributeError`. -/
def common (c : ConfigData) : Except PyErr YVal :=
  match c.config_data with
  | .ymap m => Except.ok ((m.lookup "COMMON").getD (.ymap []))
  | _ => Except.error PyErr.attributeError

/-- Embeds the `db_config` property (lines 79-87):
`self.config_data.get("DB_CONNECTION", {}).get(self.env_var, {})`; the
second `.get` raises `AttributeError` when the first returns a
non-mapping. -/
def db_config (c : ConfigData) : Except PyErr YVal :=
  match c.config_data with
  | .ymap m =>
    match (m.lookup "DB_CONNECTION").getD (.ymap []) with
    | .ymap m2 => Except.ok ((m2.lookup c.env_var).getD (.ymap []))
    | _ => Except.error PyErr.attributeError
  | _ => Except.error PyErr.attributeError

end ConfigData

/-- The configuration document of the spec's example. -/
def cfgSample : YVal :=
  .ymap [("COMMON", .ymap [("x", .int 1)]),
         ("DB_CONNECTION", .ymap [("localhost", .ymap [("user", .str "a")])])]

/-- Claim C6: on the example document, `common` returns the `COMMON`
sub-mapping and `db_config` returns the `DB_CONNECTION` entry for the
environment label, or the empty mapping for an unknown label; in
general, `common` returns the value under `COMMON` (or the empty mapping
when absent) and `db_config` the value under `DB_CONNECTION` indexed by
the label (or the empty mapping when either level is absent). -/
theorem config_accessors_select_submaps :
    (ConfigData.common ⟨cfgSample, "localhost"⟩ =
       Except.ok (.ymap [("x", .int 1)])) ∧
    (ConfigData.db_config ⟨cfgSample, "localhost"⟩ =
       Except.ok (.ymap [("user", .str "a")])) ∧
    (ConfigData.db_config ⟨cfgSample, "prod"⟩ = Except.ok (.ymap [])) ∧
    (∀ m env v, List.lookup "COMMON" m = some v →
       ConfigData.common ⟨.ymap m, env⟩ = Except.ok v) ∧
    (∀ m env, List.lookup "COMMON" m = none →
       ConfigData.common ⟨.ymap m, env⟩ = Except.ok (.ymap [])) ∧
    (∀ m env m2 v, List.lookup "DB_CONNECTION" m = some (.ymap m2) →
       List.lookup env m2 = some v →
       ConfigData.db_config ⟨.ymap m, env⟩ = Except.ok v) ∧
    (∀ m env m2, List.lookup "DB_CONNECTION" m = some (.ymap m2) →
       List.lookup env m2 = none →
       ConfigData.db_config ⟨.ymap m, env⟩ = Except.ok (.ymap [])) ∧
    (∀ m env, List.lookup "DB_CONNECTION" m = none →
       ConfigData.db_config ⟨.ymap m, env⟩ = Except.ok (.ymap [])) := by
  refine ⟨rfl, rfl, rfl, ?_, ?_, ?_, ?_, ?_⟩
  · intro m env v hv
    simp [ConfigData.common, hv]
  · intro m env hv
    simp [ConfigData.common, hv]
  · intro m env m2 v h1 h2
    simp [ConfigData.db_config, h1, h2]
  · intro m env m2 h1 h2
    simp [ConfigData.db_config, h1, h2]
  · intro m env h1
    simp [ConfigData.db_config, h1]

/-- Claim C6 witness: the general clauses applied to the empty document
and an absent environment. -/
theorem config_accessors_select_submaps_witness :
    ConfigData.common ⟨.ymap [], "e"⟩ = Except.ok (.ymap []) ∧
    ConfigData.db_config ⟨.ymap [], "e"⟩ = Except.ok (.ymap []) :=
  ⟨config_accessors_select_submaps.2.2.2.2.1 [] "e" rfl,
   config_accessors_select_submaps.2.2.2.2.2.2.2 [] "e" rfl⟩

/-- Claim C7: a missing configuration file and an unparsable
configuration file both make `YamlConfigParser.get_data` log the error
and return the empty mapping; both exception classes are caught, so the
embedded function is total on these outcomes and nothing is raised. -/
theorem yaml_errors_yield_empty_mapping (msg : String) :
    YamlConfigParser.get_data .fileNotFound = .ymap [] ∧
    YamlConfigParser.get_data (.yamlError msg) = .ymap [] :=
  ⟨rfl, rfl⟩

/-- Claim C9: for an existing file whose parsed content is empty (or the
literal `null`), `safe_load` gives `None`, `get_data` returns that
`None` unchanged (`YVal.null`, not a mapping), and the accessors
`common` and `db_config` on that value raise `AttributeError` instead of
returning an empty mapping. -/
theorem empty_yaml_none_breaks_accessors :
    YamlConfigParser.get_data (.parsed .null) = YVal.null ∧
    (∀ env, ConfigData.common ⟨YVal.null, env⟩ =
       Except.error PyErr.attributeError) ∧
    (∀ env, ConfigData.db_config ⟨YVal.null, env⟩ =
       Except.error PyErr.attributeError) :=
  ⟨rfl, fun _ => rfl, fun _ => rfl⟩

/-- Embeds `GeoJsonDBDataWriter.__init__` (lines 55-74 of `db.py`). -/
structure GeoJsonDBDataWriter where
  db_connection : List (String × String)
  geojson_feature_collection : FeatureCollection
  table_name : String
  crs : Option String

namespace GeoJsonDBDataWriter

/-- Models `self.db_connection[key]` inside the engine URL f-string: a
missing key raises `KeyError`. -/
def connKey (conn : List (String × String)) (key : String) : Except PyErr String :=
  match conn.lookup key with
  | some v => Except.ok v
  | none => Except.error (PyErr.keyError key)

/-- Embeds the `DBDataWriter.engine` property (lines 30-42): the
connection URL reads the five keys in f-string evaluation order; the
returned pieces are never inspected further by the embedded claims. -/
def engine (w : GeoJsonDBDataWriter) : Except PyErr (List String) :=
  Except.bind (connKey w.db_connection "user") fun user =>
  Except.bind (connKey w.db_connection "password") fun password =>
  Except.bind (connKey w.db_connection "host") fun host =>
  Except.bind (connKey w.db_connection "port") fun port =>
  Except.bind (connKey w.db_connection "database") fun database =>
  Except.ok [user, password, host, port, database]

/-- Embeds `GeoJsonDBDataWriter.write` (lines 76-98). The `try` body:
the dataframe conversion and CRS stamping (pure in this model), then
`gdf.to_postgis(..., con=self.engine, ...)` - the `engine` property is
evaluated as an argument and can raise `KeyError`; the external database
call itself is the explicit `toPostgisOutcome` input - then
`self.engine.dispose()`, which builds a second engine from the same
mapping. The `except exc.SQLAlchemyError` clause catches exactly the
SQLAlchemy error family, logs it and falls through to `return None`;
every other exception escapes the method. -/
def write (w : GeoJsonDBDataWriter) (toPostgisOutcome : Except PyErr Unit) :
    Except PyErr Unit :=
  match
    (Except.bind (engine w) fun _ =>
     Except.bind toPostgisOutcome fun _ =>
     Except.bind (engine w) fun _ =>
     Except.ok ()) with
  | .error (.sqlAlchemyError _) => Except.ok ()
  | r => r

end GeoJsonDBDataWriter

/-- All five connection keys read by the engine URL are present. -/
def hasAllConnKeys (conn : List (String × String)) : Bool :=
  (conn.lookup "user").isSome && (conn.lookup "password").isSome &&
  (conn.lookup "host").isSome && (conn.lookup "port").isSome &&
  (conn.lookup "database").isSome

/-- The writer call ended in an escaping `KeyError`. -/
def escapesKeyError : Except PyErr Unit → Bool
  | .error (.keyError _) => true
  | _ => false

/-- Claim C5: whenever the database layer raises an SQLAlchemy error
(connection error, schema mismatch, constraint violation - any message)
during `write`, the error is caught and logged inside `write` and the
call returns normally; nothing escapes to the caller and the write is a
no-op from the caller's perspective. -/
theorem write_swallows_sqlalchemy_errors (conn : List (String × String))
    (fcoll : FeatureCollection) (tname : String) (crs : Option String)
    (msg : String) (hk : hasAllConnKeys conn = true) :
    GeoJsonDBDataWriter.write ⟨conn, fcoll, tname, crs⟩
      (Except.error (PyErr.sqlAlchemyError msg)) = Except.ok () := by
  simp only [hasAllConnKeys, Bool.and_eq_true, Option.isSome_iff_exists] at hk
  obtain ⟨⟨⟨⟨⟨u, hu⟩, p, hp⟩, hst, hh⟩, po, hpo⟩, db, hdb⟩ := hk
  simp [GeoJsonDBDataWriter.write, GeoJsonDBDataWriter.engine,
    GeoJsonDBDataWriter.connKey, hu, hp, hh, hpo, hdb, Except.bind]

/-- A complete connection mapping. -/
def goodConn : List (String × String) :=
  [("user", "u"), ("password", "pw"), ("host", "localhost"),
   ("port", "5432"), ("database", "gdacs")]

/-- Claim C5 witness: a connection-refused SQLAlchemy error is swallowed
and `write` returns normally. -/
theorem write_swallows_sqlalchemy_errors_witness :
    GeoJsonDBDataWriter.write ⟨goodConn, ⟨[]⟩, "disaster_alerts", some "EPSG:4326"⟩
      (Except.error (PyErr.sqlAlchemyError "connection refused")) = Except.ok () :=
  write_swallows_sqlalchemy_errors goodConn ⟨[]⟩ "disaster_alerts"
    (some "EPSG:4326") "connection refused" (by decide)

/-- Claim C10: for every connection mapping lacking one of the keys
`user`, `password`, `host`, `port`, `database` (for example the empty
mapping the configuration accessors return for an unknown environment),
`write` raises a `KeyError` that its SQLAlchemy handler does not catch,
so the exception escapes the writer regardless of the database
outcome. -/
theorem write_missing_conn_key_escapes (conn : List (String × String))
    (fcoll : FeatureCollection) (tname : String) (crs : Option String)
    (toPostgisOutcome : Except PyErr Unit)
    (hk : hasAllConnKeys conn = false) :
    escapesKeyError
      (GeoJsonDBDataWriter.write ⟨conn, fcoll, tname, crs⟩ toPostgisOutcome) = true := by
  rcases hu : conn.lookup "user" with _ | u
  · simp [GeoJsonDBDataWriter.write, GeoJsonDBDataWriter.engine,
      GeoJsonDBDataWriter.connKey, hu, Except.bind, escapesKeyError]
  rcases hp : conn.lookup "password" with _ | p
  · simp [GeoJsonDBDataWriter.write, GeoJsonDBDataWriter.engine,
      GeoJsonDBDataWriter.connKey, hu, hp, Except.bind, escapesKeyError]
  rcases hh : conn.lookup "host" with _ | hst
  · simp [GeoJsonDBDataWriter.write, GeoJsonDBDataWriter.engine,
      GeoJsonDBDataWriter.connKey, hu, hp, hh, Except.bind, escapesKeyError]
  rcases hpo : conn.lookup "port" with _ | po
  · simp [GeoJsonDBDataWriter.write, GeoJsonDBDataWriter.engine,
      GeoJsonDBDataWriter.connKey, hu, hp, hh, hpo, Except.bind, escapesKeyError]
  rcases hdb : conn.lookup "database" with _ | db
  · simp [GeoJsonDBDataWriter.write, GeoJsonDBDataWriter.engine,
      GeoJsonDBDataWriter.connKey, hu, hp, hh, hpo, hdb, Except.bind, escapesKeyError]
  exfalso
  simp [hasAllConnKeys, hu, hp, hh, hpo, hdb] at hk

/-- Claim C10 witness: the empty connection mapping (what `db_config`
yields for an unknown environment) makes `write` raise an escaping
`KeyError` even when the database layer itself would succeed. -/
theorem write_missing_conn_key_escapes_witness :
    escapesKeyError
      (GeoJsonDBDataWriter.write ⟨[], ⟨[]⟩, "disaster_alerts", none⟩
        (Except.ok ())) = true :=
  write_missing_conn_key_escapes [] ⟨[]⟩ "disaster_alerts" none
    (Except.ok ()) (by decide)
